import Mathlib

/-!
Verification of the prayer-time computation in src/main.js (BMH shul board).

The numeric pipeline of the source is embedded over the rationals.  The
JavaScript Math trigonometry (sin, cos, tan, asin, acos, atan, the constant
Math.PI) and the host time zone are modelled as an explicit environment
`JsEnv`: every definition below is the source computation with those calls
left abstract, so theorems quantified over the environment hold for any
behaviour of the host's floating-point trigonometry, and concrete
environments instantiate the oracle for witnesses and counterexamples.

Instants are epoch milliseconds (`ℤ`), calendar dates are epoch-day counts
(`ℤ`, days since 1970-01-01), matching the JavaScript `Date` value model.
-/

namespace BMH

/-- Truncation toward zero, as JavaScript applies inside the remainder
operator: the floor for nonnegative arguments and the ceiling (written as a
negated floor) for negative ones. -/
def jsTrunc (q : ℚ) : ℤ := if 0 ≤ q then ⌊q⌋ else -⌊-q⌋

/-- The JavaScript remainder `a % b`: `a - b * trunc (a / b)`, so the result
carries the sign of the dividend. -/
def jsMod (a b : ℚ) : ℚ := a - b * (jsTrunc (a / b) : ℚ)

/-- The source's normalization idiom `((x % n) + n) % n`, used for the solar
longitude (n = 360), right ascension (n = 360) and UT hours (n = 24). -/
def jsNorm (x n : ℚ) : ℚ := jsMod (jsMod x n + n) n

/-- JavaScript `Math.round`: floor of `x + 1/2`, ties toward positive
infinity. -/
def jsRound (q : ℚ) : ℤ := ⌊q + 1/2⌋

/-- Days since 1970-01-01 of a proleptic-Gregorian civil date. -/
def toEpochDay (y m d : ℤ) : ℤ :=
  let y2 := if m ≤ 2 then y - 1 else y
  let mp := if m ≤ 2 then m + 9 else m - 3
  365 * y2 + Int.fdiv y2 4 - Int.fdiv y2 100 + Int.fdiv y2 400
    + Int.fdiv (153 * mp + 2) 5 + d - 1 - 719468

/-- Civil date (year, month, day) of an epoch-day count. -/
def civilFromDays (z0 : ℤ) : ℤ × ℤ × ℤ :=
  let z := z0 + 719468
  let era := Int.fdiv z 146097
  let doe := z - era * 146097
  let yoe := Int.fdiv
    (doe - Int.fdiv doe 1460 + Int.fdiv doe 36524 - Int.fdiv doe 146096) 365
  let y := yoe + era * 400
  let doy := doe - (365 * yoe + Int.fdiv yoe 4 - Int.fdiv yoe 100)
  let mp := Int.fdiv (5 * doy + 2) 153
  let d := doy - Int.fdiv (153 * mp + 2) 5 + 1
  let m := mp + (if mp < 10 then 3 else -9)
  (if m ≤ 2 then y + 1 else y, m, d)

/-- Host environment: the radian-based JavaScript Math trigonometry together
with the value of Math.PI, and the local time zone given as `tzAdj e`, the
millisecond offset of civil day `e`'s local midnight from its UTC midnight
(0 for UTC, 18000000 for UTC-5, 14400000 for UTC-4). -/
structure JsEnv where
  sinR : ℚ → ℚ
  cosR : ℚ → ℚ
  tanR : ℚ → ℚ
  asinR : ℚ → ℚ
  acosR : ℚ → ℚ
  atanR : ℚ → ℚ
  pi : ℚ
  tzAdj : ℤ → ℤ

/-- The degree-argument sine defined inside `noaaSunsetUT`:
`x => Math.sin(x * Math.PI / 180)`. -/
def degSin (env : JsEnv) (x : ℚ) : ℚ := env.sinR (x * env.pi / 180)

/-- The degree-argument cosine defined inside `noaaSunsetUT`. -/
def degCos (env : JsEnv) (x : ℚ) : ℚ := env.cosR (x * env.pi / 180)

/-- The degree-argument tangent defined inside `noaaSunsetUT`. -/
def degTan (env : JsEnv) (x : ℚ) : ℚ := env.tanR (x * env.pi / 180)

/-- Deployment latitude constant `LAT` from src/main.js. -/
def LAT : ℚ := 41.19392515448243

/-- Deployment longitude constant `LNG` from src/main.js (west-negative). -/
def LNG : ℚ := -74.02504208449552

/-- Depression (zenith) angle constant `ZENITH_DEG` from src/main.js. -/
def ZENITH_DEG : ℚ := 90.0

/-- Calibration flag constant `CALIBRATION_ENABLED` from src/main.js. -/
def CALIBRATION_ENABLED : Bool := true

/-- The calibration reference date "2025-12-06" as an epoch-day count. -/
def REFERENCE_SHABBOS_DAY : ℤ := toEpochDay 2025 12 6

/-- Hour component of the reference observation "17:17". -/
def REFERENCE_MOTZAEI_MAARIV_H : ℤ := 17

/-- Minute component of the reference observation "17:17". -/
def REFERENCE_MOTZAEI_MAARIV_M : ℤ := 17

/-- Constant `REFERENCE_MAARIV_OFFSET_MIN` from src/main.js. -/
def REFERENCE_MAARIV_OFFSET_MIN : ℤ := 50

/-- Function dayOfYear from src/main.js: the millisecond difference between the
local midnight of the date and the local midnight of Dec 31 of the previous
year (`new Date(year, 0, 0)`), floor-divided by one day of milliseconds. -/
def dayOfYear (env : JsEnv) (e : ℤ) : ℤ :=
  let y := (civilFromDays e).1
  let start := toEpochDay (y - 1) 12 31
  Int.fdiv ((e - start) * 86400000 + env.tzAdj e - env.tzAdj start) 86400000

/-- The true ordinal day-of-year of an epoch day: 1 on January 1. -/
def ordinalDayOfYear (e : ℤ) : ℤ :=
  e - toEpochDay (civilFromDays e).1 1 1 + 1

/-- Step `t = N + ((18 - lngHour) / 24)` of `noaaSunsetUT`. -/
def tSun (env : JsEnv) (e : ℤ) (lngDeg : ℚ) : ℚ :=
  (dayOfYear env e : ℚ) + (18 - lngDeg / 15) / 24

/-- Mean anomaly `M = 0.9856 * t - 3.289`. -/
def Msun (env : JsEnv) (e : ℤ) (lngDeg : ℚ) : ℚ :=
  0.9856 * tSun env e lngDeg - 3.289

/-- True longitude `L`, normalized into [0, 360) by the source's idiom. -/
def Lsun (env : JsEnv) (e : ℤ) (lngDeg : ℚ) : ℚ :=
  jsNorm (Msun env e lngDeg + 1.916 * degSin env (Msun env e lngDeg)
    + 0.020 * degSin env (2 * Msun env e lngDeg) + 282.634) 360

/-- Right ascension in hours: `atan(0.91764 tan L)` in degrees, normalized,
shifted into L's quadrant, divided by 15. -/
def RAsun (env : JsEnv) (e : ℤ) (lngDeg : ℚ) : ℚ :=
  let L := Lsun env e lngDeg
  let ra1 := jsNorm (env.atanR (0.91764 * degTan env L) * 180 / env.pi) 360
  let lq : ℤ := ⌊L / 90⌋ * 90
  let rq : ℤ := ⌊ra1 / 90⌋ * 90
  (ra1 + ((lq : ℚ) - (rq : ℚ))) / 15

/-- Sine of the solar declination, `0.39782 * sin L`. -/
def sinDec (env : JsEnv) (e : ℤ) (lngDeg : ℚ) : ℚ :=
  0.39782 * degSin env (Lsun env e lngDeg)

/-- Cosine of the solar declination, `Math.cos (Math.asin sinDec)`. -/
def cosDec (env : JsEnv) (e : ℤ) (lngDeg : ℚ) : ℚ :=
  env.cosR (env.asinR (sinDec env e lngDeg))

/-- The local hour-angle cosine exactly as the source computes it: note the
numerator and denominator use the module constant `LAT`, not a latitude
argument. -/
def cosH (env : JsEnv) (e : ℤ) (lngDeg zenithDeg : ℚ) : ℚ :=
  (degCos env zenithDeg - sinDec env e lngDeg * degSin env LAT)
    / (cosDec env e lngDeg * degCos env LAT)

/-- Hour angle in hours, `acos(cosH)` in degrees divided by 15. -/
def Hsun (env : JsEnv) (e : ℤ) (lngDeg zenithDeg : ℚ) : ℚ :=
  env.acosR (cosH env e lngDeg zenithDeg) * 180 / env.pi / 15

/-- Local mean time `T = H + RA - 0.06571 t - 6.622`. -/
def Tsun (env : JsEnv) (e : ℤ) (lngDeg zenithDeg : ℚ) : ℚ :=
  Hsun env e lngDeg zenithDeg + RAsun env e lngDeg
    - 0.06571 * tSun env e lngDeg - 6.622

/-- UT hours of sunset: `T - lngHour`, normalized into [0, 24). -/
def UTsun (env : JsEnv) (e : ℤ) (lngDeg zenithDeg : ℚ) : ℚ :=
  jsNorm (Tsun env e lngDeg zenithDeg - lngDeg / 15) 24

/-- Function noaaSunsetUT from src/main.js.  The latitude parameter is carried but,
as in the source, never read: `cosH` uses the constant `LAT`.  Returns none
exactly when the source returns null (`cosH < -1 || cosH > 1`). -/
def noaaSunsetUT (env : JsEnv) (e : ℤ) (latDeg lngDeg zenithDeg : ℚ) :
    Option ℚ :=
  if cosH env e lngDeg zenithDeg < -1 ∨ 1 < cosH env e lngDeg zenithDeg then
    none
  else some (UTsun env e lngDeg zenithDeg)

/-- Body of the map in `getNoaaSunsetDateRaw`: hours is the floor of the UT
value, minutes the rounded fractional part, combined with the date's UTC
midnight (`Date.UTC(year, month, day)` of the date's civil parts). -/
def rawInstant (e : ℤ) (ut : ℚ) : ℤ :=
  let hours := ⌊ut⌋
  let minutes := jsRound ((ut - (hours : ℚ)) * 60)
  let p := civilFromDays e
  let baseUTC := toEpochDay p.1 p.2.1 p.2.2 * 86400000
  baseUTC + (hours * 60 + minutes) * 60000

/-- Function getNoaaSunsetDateRaw from src/main.js: none when the UT computation
returned null, otherwise the constructed UTC instant. -/
def getNoaaSunsetDateRaw (env : JsEnv) (e : ℤ) (latDeg lngDeg zenithDeg : ℚ) :
    Option ℤ :=
  (noaaSunsetUT env e latDeg lngDeg zenithDeg).map (rawInstant e)

/-- Millisecond instant of local time `h:m` on civil day `e`, as
`parseLocalTimeOnDate` builds it (local midnight plus `setHours`). -/
def parseLocalTimeOnDate (env : JsEnv) (e : ℤ) (h m : ℤ) : ℤ :=
  e * 86400000 + env.tzAdj e + h * 3600000 + m * 60000

/-- Function computeCalibrationOffsetMs from src/main.js, with the global
calibration flag passed explicitly.  The implied true sunset is the observed
event time minus the fixed event offset, and the result is implied minus
theoretical. -/
def computeCalibrationOffsetMs (env : JsEnv) (enabled : Bool) : ℤ :=
  if enabled = false then 0
  else
    ((getNoaaSunsetDateRaw env REFERENCE_SHABBOS_DAY LAT LNG ZENITH_DEG).map
      fun computedSunset =>
        (parseLocalTimeOnDate env REFERENCE_SHABBOS_DAY
            REFERENCE_MOTZAEI_MAARIV_H REFERENCE_MOTZAEI_MAARIV_M
          - REFERENCE_MAARIV_OFFSET_MIN * 60 * 1000) - computedSunset).getD 0

/-- Function getSunsetWithCalibration from src/main.js, with the process-wide
calibration state (`CALIBRATION_ENABLED`, `CAL_OFFSET_MS`) passed
explicitly.  A zero offset is falsy in the source, so it short-circuits to
the raw sunset. -/
def getSunsetWithCalibration (env : JsEnv) (enabled : Bool) (offsetMs : ℤ)
    (e : ℤ) : Option ℤ :=
  (getNoaaSunsetDateRaw env e LAT LNG ZENITH_DEG).map fun raw =>
    if enabled = false ∨ offsetMs = 0 then raw else raw + offsetMs

/-- JavaScript `Date.getDay` on a civil day: 0 = Sunday ... 6 = Saturday
(epoch day 0, 1970-01-01, was a Thursday). -/
def jsGetDay (e : ℤ) : ℤ := (e + 4) % 7

/-- A local date-time as the schedule functions consume it: the local civil
date (epoch-day count) and the local hour of day. -/
structure LocalDT where
  day : ℤ
  hour : ℤ

/-- Function getSundayOfWeek from src/main.js: step back `getDay()` days. -/
def getSundayOfWeek (t : LocalDT) : ℤ := t.day - jsGetDay t.day

/-- Function getComingShabbos from src/main.js: `diff = (6 - day + 7) % 7`, bumped
to 7 when today is Saturday with local hour at least 18. -/
def getComingShabbos (t : LocalDT) : ℤ :=
  t.day +
    (if (6 - jsGetDay t.day + 7) % 7 = 0 ∧ 18 ≤ t.hour then 7
     else (6 - jsGetDay t.day + 7) % 7)

/-- The list built by the Sun-Thu loop of `updateWeekdayMinchaMaariv`:
calibrated sunsets of Sunday + 0..4, keeping only the computable ones. -/
def weekdaySunsets (env : JsEnv) (enabled : Bool) (offsetMs : ℤ)
    (t : LocalDT) : List ℤ :=
  (List.range 5).filterMap fun (i : ℕ) =>
    getSunsetWithCalibration env enabled offsetMs (getSundayOfWeek t + (i : ℤ))

/-- The pure core of `updateWeekdayMinchaMaariv`: the earliest-sunset fold
(initialized at `sunsets[0]`, scanning the whole list) minus 15 minutes;
none when no sunset was computable. -/
def weekdayMinchaMaariv (env : JsEnv) (enabled : Bool) (offsetMs : ℤ)
    (t : LocalDT) : Option ℤ :=
  (weekdaySunsets env enabled offsetMs t).head?.map fun x =>
    (weekdaySunsets env enabled offsetMs t).foldl
      (fun b s => if s < b then s else b) x - 15 * 60 * 1000

/-- The pure core of `updateShabbosTimes`: the calibrated sunset of the
coming Shabbos, from which the three displayed instants derive (erev
Shabbos Mincha, Shabbos day Mincha, Motzaei Shabbos Maariv). -/
def shabbosTimes (env : JsEnv) (enabled : Bool) (offsetMs : ℤ)
    (t : LocalDT) : Option (ℤ × ℤ × ℤ) :=
  (getSunsetWithCalibration env enabled offsetMs (getComingShabbos t)).map
    fun s => (s - 15 * 60 * 1000, s - 45 * 60 * 1000, s + 50 * 60 * 1000)

/-- Concrete environment with innocuous trigonometry (sine-like calls 0,
cosine-like calls 1) in the UTC time zone; its hour-angle cosine is 1, so
every sunset is computable. -/
def envW : JsEnv where
  sinR := fun _ => 0
  cosR := fun _ => 1
  tanR := fun _ => 0
  asinR := fun _ => 0
  acosR := fun _ => 0
  atanR := fun _ => 0
  pi := 3
  tzAdj := fun _ => 0

/-- Concrete environment whose cosine calls return 1/2: its hour-angle
cosine is (1/2) / (1/4) = 2, outside [-1, 1], so no sunset is computable. -/
def envNoSun : JsEnv where
  sinR := fun _ => 0
  cosR := fun _ => 1/2
  tanR := fun _ => 0
  asinR := fun _ => 0
  acosR := fun _ => 0
  atanR := fun _ => 0
  pi := 3
  tzAdj := fun _ => 0

/-- Concrete environment tuned so the UT sunset of epoch day 0 at longitude
0 is exactly 23.995 hours: hour 23 with fractional minutes 59.7, which
Math.round pushes up to minute 60. -/
def envRoll : JsEnv where
  sinR := fun _ => 0
  cosR := fun _ => 1
  tanR := fun _ => 0
  asinR := fun _ => 0
  acosR := fun _ => 3.182998125
  atanR := fun _ => 0
  pi := 3
  tzAdj := fun _ => 0

/-- Concrete environment modelling the deployment host time zone
America/New_York around 2025: local midnight is UTC+5h in standard time and
UTC+4h between the March 9 and November 2 transitions. -/
def envNY : JsEnv where
  sinR := fun _ => 0
  cosR := fun _ => 1
  tanR := fun _ => 0
  asinR := fun _ => 0
  acosR := fun _ => 0
  atanR := fun _ => 0
  pi := 3
  tzAdj := fun e => if 20157 ≤ e ∧ e ≤ 20394 then 14400000 else 18000000

/-- When the truncated quotient is a floor (nonnegative quotient), the
JavaScript remainder by a positive modulus lies in [0, n). -/
theorem jsMod_pos_bounds (a n : ℚ) (hn : 0 < n) (ha : 0 ≤ a / n) :
    0 ≤ jsMod a n ∧ jsMod a n < n := by
  unfold jsMod jsTrunc
  rw [if_pos ha]
  have hq : ((⌊a / n⌋ : ℤ) : ℚ) ≤ a / n := Int.floor_le _
  have hq2 : a / n < ((⌊a / n⌋ : ℤ) : ℚ) + 1 := Int.lt_floor_add_one _
  have hmul1 : ((⌊a / n⌋ : ℤ) : ℚ) * n ≤ a / n * n :=
    mul_le_mul_of_nonneg_right hq hn.le
  have hmul2 : a / n * n < (((⌊a / n⌋ : ℤ) : ℚ) + 1) * n :=
    mul_lt_mul_of_pos_right hq2 hn
  rw [div_mul_cancel₀ a hn.ne'] at hmul1 hmul2
  constructor
  · nlinarith
  · nlinarith

/-- When the truncated quotient is a ceiling (negative quotient), the
JavaScript remainder by a positive modulus lies in (-n, 0]. -/
theorem jsMod_neg_bounds (a n : ℚ) (hn : 0 < n) (ha : a / n < 0) :
    -n < jsMod a n ∧ jsMod a n ≤ 0 := by
  unfold jsMod jsTrunc
  rw [if_neg (not_le.mpr ha), Int.floor_neg, neg_neg]
  have hq : a / n ≤ ((⌈a / n⌉ : ℤ) : ℚ) := Int.le_ceil _
  have hq2 : ((⌈a / n⌉ : ℤ) : ℚ) < a / n + 1 := Int.ceil_lt_add_one _
  have hmul1 : a / n * n ≤ ((⌈a / n⌉ : ℤ) : ℚ) * n :=
    mul_le_mul_of_nonneg_right hq hn.le
  have hmul2 : ((⌈a / n⌉ : ℤ) : ℚ) * n < (a / n + 1) * n :=
    mul_lt_mul_of_pos_right hq2 hn
  rw [div_mul_cancel₀ a hn.ne'] at hmul1
  rw [add_mul, div_mul_cancel₀ a hn.ne'] at hmul2
  constructor
  · nlinarith
  · nlinarith

/-- The source's `((x % n) + n) % n` normalization lands in [0, n) for any
input and any positive modulus. -/
theorem jsNorm_bounds (x n : ℚ) (hn : 0 < n) :
    0 ≤ jsNorm x n ∧ jsNorm x n < n := by
  have hfirst : -n < jsMod x n ∧ jsMod x n < n := by
    rcases le_or_lt 0 (x / n) with h | h
    · have hb := jsMod_pos_bounds x n hn h
      exact ⟨by linarith [hb.1], hb.2⟩
    · have hb := jsMod_neg_bounds x n hn h
      exact ⟨hb.1, by linarith [hb.2]⟩
  have hpos : 0 ≤ (jsMod x n + n) / n := by
    apply div_nonneg _ hn.le
    linarith [hfirst.1]
  unfold jsNorm
  exact jsMod_pos_bounds (jsMod x n + n) n hn hpos

/-- The earliest-sunset fold of `updateWeekdayMinchaMaariv` returns either
its initial value or an element of the list. -/
theorem foldlEarliest_mem (l : List ℤ) (a : ℤ) :
    l.foldl (fun b s => if s < b then s else b) a ∈ a :: l := by
  induction l generalizing a with
  | nil => simp
  | cons x xs ih =>
    simp only [List.foldl_cons]
    by_cases h : x < a
    · rw [if_pos h]
      have hx := ih x
      simp only [List.mem_cons] at hx ⊢
      tauto
    · rw [if_neg h]
      have hx := ih a
      simp only [List.mem_cons] at hx ⊢
      tauto

/-- The earliest-sunset fold is a lower bound of its initial value and of
every element of the list. -/
theorem foldlEarliest_le (l : List ℤ) (a : ℤ) :
    l.foldl (fun b s => if s < b then s else b) a ≤ a ∧
      ∀ y ∈ l, l.foldl (fun b s => if s < b then s else b) a ≤ y := by
  induction l generalizing a with
  | nil => simp
  | cons x xs ih =>
    simp only [List.foldl_cons]
    by_cases h : x < a
    · rw [if_pos h]
      have hx := ih x
      refine ⟨by linarith [hx.1], ?_⟩
      intro y hy
      rcases List.mem_cons.1 hy with rfl | hy2
      · exact hx.1
      · exact hx.2 y hy2
    · rw [if_neg h]
      have hx := ih a
      refine ⟨hx.1, ?_⟩
      intro y hy
      rcases List.mem_cons.1 hy with rfl | hy2
      · linarith [hx.1, not_lt.1 h]
      · exact hx.2 y hy2

/-- The filtered weekday sunset list is empty exactly when none of the five
Sunday-through-Thursday sunsets was computable. -/
theorem weekdaySunsets_eq_nil_iff (env : JsEnv) (enabled : Bool)
    (offsetMs : ℤ) (t : LocalDT) :
    weekdaySunsets env enabled offsetMs t = [] ↔
      ∀ i : ℕ, i < 5 →
        getSunsetWithCalibration env enabled offsetMs
          (getSundayOfWeek t + (i : ℤ)) = none := by
  unfold weekdaySunsets
  rw [List.filterMap_eq_nil_iff]
  constructor
  · intro h i hi
    exact h i (List.mem_range.mpr hi)
  · intro h i hi
    exact h i (List.mem_range.mp hi)

/-- When the guard admits the hour-angle cosine, the raw sunset is the
constructed instant of the normalized UT value. -/
theorem raw_some_of_guard (env : JsEnv) (e : ℤ) (latDeg lngDeg zenithDeg : ℚ)
    (h : ¬(cosH env e lngDeg zenithDeg < -1 ∨ 1 < cosH env e lngDeg zenithDeg)) :
    getNoaaSunsetDateRaw env e latDeg lngDeg zenithDeg
      = some (rawInstant e (UTsun env e lngDeg zenithDeg)) := by
  unfold getNoaaSunsetDateRaw noaaSunsetUT
  rw [if_neg h]
  rfl

/-- When the guard rejects the hour-angle cosine, the raw sunset is none. -/
theorem raw_none_of_guard (env : JsEnv) (e : ℤ) (latDeg lngDeg zenithDeg : ℚ)
    (h : cosH env e lngDeg zenithDeg < -1 ∨ 1 < cosH env e lngDeg zenithDeg) :
    getNoaaSunsetDateRaw env e latDeg lngDeg zenithDeg = none := by
  unfold getNoaaSunsetDateRaw noaaSunsetUT
  rw [if_pos h]
  rfl

/-- In the innocuous environment the hour-angle cosine is 1 on every date
and for every longitude and zenith argument. -/
theorem cosH_envW (e : ℤ) (lngDeg zenithDeg : ℚ) :
    cosH envW e lngDeg zenithDeg = 1 := by
  norm_num [cosH, sinDec, cosDec, degSin, degCos, envW]

/-- In the rollover environment the hour-angle cosine is also 1: it shares
the sine and cosine oracle of the innocuous environment. -/
theorem cosH_envRoll (e : ℤ) (lngDeg zenithDeg : ℚ) :
    cosH envRoll e lngDeg zenithDeg = 1 := by
  norm_num [cosH, sinDec, cosDec, degSin, degCos, envRoll]

/-- In the no-sunset environment the hour-angle cosine is 2 on every date:
outside the admissible interval. -/
theorem cosH_envNoSun (e : ℤ) (lngDeg zenithDeg : ℚ) :
    cosH envNoSun e lngDeg zenithDeg = 2 := by
  norm_num [cosH, sinDec, cosDec, degSin, degCos, envNoSun]

/-- With calibration disabled and a zero offset the calibrated sunset in the
innocuous environment is the raw constructed instant, on every date. -/
theorem gsc_envW (e : ℤ) :
    getSunsetWithCalibration envW false 0 e
      = some (rawInstant e (UTsun envW e LNG ZENITH_DEG)) := by
  unfold getSunsetWithCalibration
  rw [raw_some_of_guard envW e LAT LNG ZENITH_DEG (by rw [cosH_envW]; norm_num)]
  simp

/-- Claim C1: contrary to the claim, the sunset computation does not use
the latitude supplied as its argument at all — `cosH` is evaluated with the
module constant `LAT`, so the returned sunset is identical for any two
latitude arguments, in every environment, on every date. -/
theorem claim_C1_latitude_argument_ignored (env : JsEnv) (e : ℤ)
    (lat1 lat2 lngDeg zenithDeg : ℚ) :
    noaaSunsetUT env e lat1 lngDeg zenithDeg
      = noaaSunsetUT env e lat2 lngDeg zenithDeg := rfl

/-- Claim C4: the Shabbos date selection always lands on a Saturday; when
the input is a Saturday with local hour at least 18 it returns seven days
later, and otherwise it returns the unique Saturday within the next seven
days (the input date itself when the input is a Saturday before 18:00). -/
theorem claim_C4_coming_shabbos (t : LocalDT) :
    jsGetDay (getComingShabbos t) = 6 ∧
    (jsGetDay t.day = 6 ∧ 18 ≤ t.hour → getComingShabbos t = t.day + 7) ∧
    (¬(jsGetDay t.day = 6 ∧ 18 ≤ t.hour) →
      t.day ≤ getComingShabbos t ∧ getComingShabbos t < t.day + 7 ∧
        (jsGetDay t.day = 6 → getComingShabbos t = t.day)) := by
  unfold getComingShabbos jsGetDay
  split_ifs with h
  · omega
  · omega

/-- Claim C4 witness: a Saturday (epoch day 20428, 2025-12-06) at local hour
19 selects the Saturday seven days later. -/
theorem claim_C4_witness :
    getComingShabbos ⟨20428, 19⟩ = 20428 + 7 :=
  (claim_C4_coming_shabbos ⟨20428, 19⟩).2.1 (by decide)

/-- Claim C2: whenever the theoretical sunset of the reference date is
computable, the offset satisfies theoretical + offset + 50 minutes =
observed 17:17, and the calibrated sunset of the reference date is exactly
16:27 local — in any environment, because the offset is defined as the
exact difference. -/
theorem claim_C2_calibration_roundtrip (env : JsEnv) (s : ℤ)
    (hs : getNoaaSunsetDateRaw env REFERENCE_SHABBOS_DAY LAT LNG ZENITH_DEG
      = some s) :
    s + computeCalibrationOffsetMs env CALIBRATION_ENABLED + 50 * 60 * 1000
      = parseLocalTimeOnDate env REFERENCE_SHABBOS_DAY 17 17 ∧
    getSunsetWithCalibration env CALIBRATION_ENABLED
        (computeCalibrationOffsetMs env CALIBRATION_ENABLED)
        REFERENCE_SHABBOS_DAY
      = some (parseLocalTimeOnDate env REFERENCE_SHABBOS_DAY 16 27) := by
  simp only [CALIBRATION_ENABLED]
  have hoff : computeCalibrationOffsetMs env true
      = parseLocalTimeOnDate env REFERENCE_SHABBOS_DAY 17 17
          - 50 * 60 * 1000 - s := by
    unfold computeCalibrationOffsetMs
    rw [hs]
    simp [REFERENCE_MOTZAEI_MAARIV_H, REFERENCE_MOTZAEI_MAARIV_M,
      REFERENCE_MAARIV_OFFSET_MIN]
  have hparse : parseLocalTimeOnDate env REFERENCE_SHABBOS_DAY 17 17
      - 50 * 60 * 1000 = parseLocalTimeOnDate env REFERENCE_SHABBOS_DAY 16 27 := by
    unfold parseLocalTimeOnDate
    omega
  constructor
  · omega
  · unfold getSunsetWithCalibration
    rw [hs]
    simp only [Option.map_some']
    by_cases hz : computeCalibrationOffsetMs env true = 0
    · rw [if_pos (Or.inr hz)]
      have hval : s = parseLocalTimeOnDate env REFERENCE_SHABBOS_DAY 16 27 := by
        omega
      rw [hval]
    · rw [if_neg (by simp [hz])]
      have hval : s + computeCalibrationOffsetMs env true
          = parseLocalTimeOnDate env REFERENCE_SHABBOS_DAY 16 27 := by
        omega
      rw [hval]

/-- Claim C2 witness: in the innocuous environment the reference sunset is
computable, and the round trip and the exact 16:27 calibrated sunset follow
from the theorem. -/
theorem claim_C2_witness :
    ∃ s : ℤ,
      getNoaaSunsetDateRaw envW REFERENCE_SHABBOS_DAY LAT LNG ZENITH_DEG
        = some s ∧
      s + computeCalibrationOffsetMs envW CALIBRATION_ENABLED + 50 * 60 * 1000
        = parseLocalTimeOnDate envW REFERENCE_SHABBOS_DAY 17 17 ∧
      getSunsetWithCalibration envW CALIBRATION_ENABLED
          (computeCalibrationOffsetMs envW CALIBRATION_ENABLED)
          REFERENCE_SHABBOS_DAY
        = some (parseLocalTimeOnDate envW REFERENCE_SHABBOS_DAY 16 27) := by
  have hs := raw_some_of_guard envW REFERENCE_SHABBOS_DAY LAT LNG ZENITH_DEG
    (by rw [cosH_envW]; norm_num)
  exact ⟨_, hs, (claim_C2_calibration_roundtrip envW _ hs).1,
    (claim_C2_calibration_roundtrip envW _ hs).2⟩

/-- Claim C6: the calibration offset is 0 when the flag is false, 0 when the
reference sunset is not computable, and otherwise the implied sunset
(observed 17:17 minus 50 minutes) minus the theoretical sunset. -/
theorem claim_C6_offset_guards (env : JsEnv) (enabled : Bool) :
    (enabled = false → computeCalibrationOffsetMs env enabled = 0) ∧
    (getNoaaSunsetDateRaw env REFERENCE_SHABBOS_DAY LAT LNG ZENITH_DEG = none →
      computeCalibrationOffsetMs env enabled = 0) ∧
    (enabled = true → ∀ s : ℤ,
      getNoaaSunsetDateRaw env REFERENCE_SHABBOS_DAY LAT LNG ZENITH_DEG
        = some s →
      computeCalibrationOffsetMs env enabled
        = parseLocalTimeOnDate env REFERENCE_SHABBOS_DAY 17 17
            - 50 * 60 * 1000 - s) := by
  refine ⟨fun h => ?_, fun h => ?_, fun h s hs => ?_⟩
  · simp [computeCalibrationOffsetMs, h]
  · unfold computeCalibrationOffsetMs
    rw [h]
    simp
  · subst h
    unfold computeCalibrationOffsetMs
    rw [hs]
    simp [REFERENCE_MOTZAEI_MAARIV_H, REFERENCE_MOTZAEI_MAARIV_M,
      REFERENCE_MAARIV_OFFSET_MIN]

/-- Claim C6 witness: the flag-off guard, the undefined-reference guard (in
the no-sunset environment) and the implied-minus-theoretical formula (in
the innocuous environment) all instantiated concretely. -/
theorem claim_C6_witness :
    computeCalibrationOffsetMs envW false = 0 ∧
    computeCalibrationOffsetMs envNoSun true = 0 ∧
    ∃ s : ℤ,
      getNoaaSunsetDateRaw envW REFERENCE_SHABBOS_DAY LAT LNG ZENITH_DEG
        = some s ∧
      computeCalibrationOffsetMs envW true
        = parseLocalTimeOnDate envW REFERENCE_SHABBOS_DAY 17 17
            - 50 * 60 * 1000 - s := by
  have hnone : getNoaaSunsetDateRaw envNoSun REFERENCE_SHABBOS_DAY LAT LNG
      ZENITH_DEG = none :=
    raw_none_of_guard envNoSun REFERENCE_SHABBOS_DAY LAT LNG ZENITH_DEG
      (Or.inr (by rw [cosH_envNoSun]; norm_num))
  have hsome := raw_some_of_guard envW REFERENCE_SHABBOS_DAY LAT LNG ZENITH_DEG
    (by rw [cosH_envW]; norm_num)
  exact ⟨(claim_C6_offset_guards envW false).1 rfl,
    (claim_C6_offset_guards envNoSun true).2.1 hnone,
    ⟨_, hsome, (claim_C6_offset_guards envW true).2.2 rfl _ hsome⟩⟩

/-- Claim C5: the raw sunset computation returns none exactly when the
hour-angle cosine falls outside [-1, 1]; being a total function of its
inputs, it throws nothing and has no side effect. -/
theorem claim_C5_undefined_iff_cosH_out_of_range (env : JsEnv) (e : ℤ)
    (latDeg lngDeg zenithDeg : ℚ) :
    getNoaaSunsetDateRaw env e latDeg lngDeg zenithDeg = none ↔
      (cosH env e lngDeg zenithDeg < -1 ∨ 1 < cosH env e lngDeg zenithDeg) := by
  unfold getNoaaSunsetDateRaw noaaSunsetUT
  by_cases h : cosH env e lngDeg zenithDeg < -1 ∨ 1 < cosH env e lngDeg zenithDeg
  · simp [h]
  · simp [h]

/-- Claim C5 witness: in the concrete no-sunset environment the hour-angle
cosine is 2, and the raw sunset computation indeed returns none. -/
theorem claim_C5_witness :
    getNoaaSunsetDateRaw envNoSun 0 LAT LNG ZENITH_DEG = none :=
  (claim_C5_undefined_iff_cosH_out_of_range envNoSun 0 LAT LNG ZENITH_DEG).mpr
    (Or.inr (by rw [cosH_envNoSun]; norm_num))

/-- Claim C7: whenever the guard admits the hour-angle cosine, the returned
UT value — `T - lngHour` pushed through the source's `((x % 24) + 24) % 24`
normalization — lies in [0, 24), and hence so does the whole-hour component
from which the instant is built. -/
theorem claim_C7_ut_in_range (env : JsEnv) (e : ℤ)
    (latDeg lngDeg zenithDeg ut : ℚ)
    (h : noaaSunsetUT env e latDeg lngDeg zenithDeg = some ut) :
    0 ≤ ut ∧ ut < 24 ∧ 0 ≤ ⌊ut⌋ ∧ ⌊ut⌋ < 24 := by
  have hut : ut = UTsun env e lngDeg zenithDeg := by
    unfold noaaSunsetUT at h
    split_ifs at h
    exact (Option.some.inj h).symm
  have hb := jsNorm_bounds (Tsun env e lngDeg zenithDeg - lngDeg / 15) 24
    (by norm_num)
  rw [hut]
  unfold UTsun
  refine ⟨hb.1, hb.2, Int.floor_nonneg.mpr hb.1, ?_⟩
  have hfl := Int.floor_le (jsNorm (Tsun env e lngDeg zenithDeg - lngDeg / 15) 24)
  have : ((⌊jsNorm (Tsun env e lngDeg zenithDeg - lngDeg / 15) 24⌋ : ℤ) : ℚ) < 24 := by
    calc ((⌊jsNorm (Tsun env e lngDeg zenithDeg - lngDeg / 15) 24⌋ : ℤ) : ℚ)
        ≤ jsNorm (Tsun env e lngDeg zenithDeg - lngDeg / 15) 24 := hfl
      _ < 24 := hb.2
  exact_mod_cast this

/-- Claim C7 witness: with the innocuous environment on epoch day 0 at the
equator and prime meridian the computation succeeds, and the theorem puts
its UT value in [0, 24). -/
theorem claim_C7_witness :
    ∃ ut : ℚ, noaaSunsetUT envW 0 0 0 90 = some ut ∧
      0 ≤ ut ∧ ut < 24 ∧ 0 ≤ ⌊ut⌋ ∧ ⌊ut⌋ < 24 := by
  have hsome : noaaSunsetUT envW 0 0 0 90 = some (UTsun envW 0 0 90) := by
    unfold noaaSunsetUT
    rw [if_neg (by rw [cosH_envW]; norm_num)]
  exact ⟨_, hsome, claim_C7_ut_in_range envW 0 0 0 90 _ hsome⟩

/-- Claim C3: the weekday schedule fails exactly when none of the five
Sunday-through-Thursday calibrated sunsets is computable, and otherwise
returns the minimum of the computed sunsets minus 15 minutes. -/
theorem claim_C3_weekday_minimum (env : JsEnv) (enabled : Bool) (offsetMs : ℤ)
    (t : LocalDT) :
    (weekdayMinchaMaariv env enabled offsetMs t = none ↔
      ∀ i : ℕ, i < 5 →
        getSunsetWithCalibration env enabled offsetMs
          (getSundayOfWeek t + (i : ℤ)) = none) ∧
    ∀ m : ℤ, weekdayMinchaMaariv env enabled offsetMs t = some m →
      m + 15 * 60 * 1000 ∈ weekdaySunsets env enabled offsetMs t ∧
      ∀ s ∈ weekdaySunsets env enabled offsetMs t, m + 15 * 60 * 1000 ≤ s := by
  constructor
  · rw [← weekdaySunsets_eq_nil_iff env enabled offsetMs t]
    unfold weekdayMinchaMaariv
    cases h : weekdaySunsets env enabled offsetMs t with
    | nil => simp
    | cons x xs => simp
  · intro m hm
    unfold weekdayMinchaMaariv at hm
    cases h : weekdaySunsets env enabled offsetMs t with
    | nil =>
      rw [h] at hm
      simp at hm
    | cons x xs =>
      rw [h] at hm
      simp only [List.head?_cons, Option.map_some'] at hm
      have hm2 : (x :: xs).foldl (fun b s => if s < b then s else b) x
          - 15 * 60 * 1000 = m := Option.some.inj hm
      have hmem := foldlEarliest_mem (x :: xs) x
      have hle := foldlEarliest_le (x :: xs) x
      have hx : m + 15 * 60 * 1000
          = (x :: xs).foldl (fun b s => if s < b then s else b) x := by omega
      rw [hx]
      constructor
      · rcases List.mem_cons.1 hmem with h2 | h2
        · rw [h2]
          exact List.mem_cons_self _ _
        · exact h2
      · exact hle.2

/-- Claim C3 witness: with calibration off in the innocuous environment all
five sunsets are computable, and the returned instant is the minimum of the
list minus 15 minutes. -/
theorem claim_C3_witness :
    ∃ m : ℤ, weekdayMinchaMaariv envW false 0 ⟨3, 0⟩ = some m ∧
      m + 15 * 60 * 1000 ∈ weekdaySunsets envW false 0 ⟨3, 0⟩ ∧
      ∀ s ∈ weekdaySunsets envW false 0 ⟨3, 0⟩, m + 15 * 60 * 1000 ≤ s := by
  have hsunday : getSundayOfWeek ⟨3, 0⟩ = 3 := by
    unfold getSundayOfWeek jsGetDay
    decide
  have hlist : weekdaySunsets envW false 0 ⟨3, 0⟩ =
      [rawInstant 3 (UTsun envW 3 LNG ZENITH_DEG),
       rawInstant 4 (UTsun envW 4 LNG ZENITH_DEG),
       rawInstant 5 (UTsun envW 5 LNG ZENITH_DEG),
       rawInstant 6 (UTsun envW 6 LNG ZENITH_DEG),
       rawInstant 7 (UTsun envW 7 LNG ZENITH_DEG)] := by
    unfold weekdaySunsets
    simp only [hsunday, gsc_envW]
    rfl
  have hmm : weekdayMinchaMaariv envW false 0 ⟨3, 0⟩
      = some ([rawInstant 3 (UTsun envW 3 LNG ZENITH_DEG),
          rawInstant 4 (UTsun envW 4 LNG ZENITH_DEG),
          rawInstant 5 (UTsun envW 5 LNG ZENITH_DEG),
          rawInstant 6 (UTsun envW 6 LNG ZENITH_DEG),
          rawInstant 7 (UTsun envW 7 LNG ZENITH_DEG)].foldl
            (fun b s => if s < b then s else b)
            (rawInstant 3 (UTsun envW 3 LNG ZENITH_DEG))
          - 15 * 60 * 1000) := by
    unfold weekdayMinchaMaariv
    rw [hlist]
    simp only [List.head?_cons, Option.map_some']
  exact ⟨_, hmm, (claim_C3_weekday_minimum envW false 0 ⟨3, 0⟩).2 _ hmm⟩

/-- Claim C9: the Shabbos schedule derives exactly the three instants
sunset minus 15 minutes, sunset minus 45 minutes, sunset plus 50 minutes
from the one calibrated sunset of the selected Shabbos, and fails exactly
when that sunset is not computable. -/
theorem claim_C9_shabbos_times (env : JsEnv) (enabled : Bool) (offsetMs : ℤ)
    (t : LocalDT) :
    (∀ s : ℤ,
      getSunsetWithCalibration env enabled offsetMs (getComingShabbos t)
        = some s →
      shabbosTimes env enabled offsetMs t
        = some (s - 15 * 60 * 1000, s - 45 * 60 * 1000, s + 50 * 60 * 1000)) ∧
    (getSunsetWithCalibration env enabled offsetMs (getComingShabbos t)
        = none →
      shabbosTimes env enabled offsetMs t = none) := by
  constructor
  · intro s hs
    unfold shabbosTimes
    rw [hs]
    rfl
  · intro hnone
    unfold shabbosTimes
    rw [hnone]
    rfl

/-- Claim C9 witness: in the innocuous environment with calibration off the
coming Shabbos sunset is computable, and the three instants follow. -/
theorem claim_C9_witness :
    ∃ s : ℤ,
      getSunsetWithCalibration envW false 0 (getComingShabbos ⟨0, 0⟩)
        = some s ∧
      shabbosTimes envW false 0 ⟨0, 0⟩
        = some (s - 15 * 60 * 1000, s - 45 * 60 * 1000, s + 50 * 60 * 1000) := by
  have hs := gsc_envW (getComingShabbos ⟨0, 0⟩)
  exact ⟨_, hs, (claim_C9_shabbos_times envW false 0 ⟨0, 0⟩).1 _ hs⟩

/-- Claim C8: under the deployment host time zone America/New_York, the
day-of-year computation is one short for dates inside daylight-saving time:
on 2025-07-01 the code computes 181 while the ordinal day-of-year is 182,
because the millisecond span back to Dec 31 local midnight is one hour
short of a whole number of days. -/
theorem claim_C8_dst_day_of_year :
    dayOfYear envNY (toEpochDay 2025 7 1) = 181 ∧
    ordinalDayOfYear (toEpochDay 2025 7 1) = 182 := by
  constructor <;> decide

/-- Claim C10: a computable sunset whose normalized UT value is 23.995 hours
(floor hour 23, fractional minutes rounding up to 60) produces the instant
one full day after the input date's UTC midnight: epoch day 0 maps to
exactly 86400000 ms, the next UTC calendar day. -/
theorem claim_C10_rollover :
    ∃ ut : ℚ, noaaSunsetUT envRoll 0 0 0 90 = some ut ∧ ⌊ut⌋ = 23 ∧
      jsRound ((ut - 23) * 60) = 60 ∧
      getNoaaSunsetDateRaw envRoll 0 0 0 90
        = some (toEpochDay 1970 1 1 * 86400000 + 24 * 60 * 60 * 1000) := by
  have hN : dayOfYear envRoll 0 = 1 := by decide
  have ht : tSun envRoll 0 0 = 7 / 4 := by
    rw [tSun, hN]
    norm_num
  have hM : Msun envRoll 0 0 = -1.5642 := by
    rw [Msun, ht]
    norm_num
  have hL : Lsun envRoll 0 0 = 281.0698 := by
    rw [Lsun, hM]
    norm_num [degSin, envRoll, jsNorm, jsMod, jsTrunc]
  have hRA : RAsun envRoll 0 0 = 18 := by
    rw [RAsun, hL]
    norm_num [degTan, envRoll, jsNorm, jsMod, jsTrunc]
  have hH : Hsun envRoll 0 0 90 = 12.7319925 := by
    rw [Hsun]
    norm_num [envRoll]
  have hT : Tsun envRoll 0 0 90 = 23.995 := by
    rw [Tsun, hH, hRA, ht]
    norm_num
  have hUT : UTsun envRoll 0 0 90 = 23.995 := by
    rw [UTsun, hT]
    norm_num [jsNorm, jsMod, jsTrunc]
  have hsome : noaaSunsetUT envRoll 0 0 0 90 = some 23.995 := by
    unfold noaaSunsetUT
    rw [if_neg (by rw [cosH_envRoll]; norm_num), hUT]
  have hraw : getNoaaSunsetDateRaw envRoll 0 0 0 90
      = some (rawInstant 0 23.995) := by
    unfold getNoaaSunsetDateRaw
    rw [hsome]
    rfl
  have hciv : civilFromDays 0 = (1970, 1, 1) := by decide
  have hep : toEpochDay 1970 1 1 = 0 := by decide
  have hval : rawInstant 0 (23.995 : ℚ) = 86400000 := by
    rw [rawInstant, hciv]
    norm_num [jsRound, hep]
  refine ⟨23.995, hsome, by norm_num, by norm_num [jsRound], ?_⟩
  rw [hraw, hval, hep]
  norm_num

end BMH
